import Mathlib

/-!
Formal model of the College_Media search-and-recommendation subsystem.

The development shallowly embeds the Elasticsearch service layer
(`backend/services/searchService.js`), the index sync worker
(`IndexSyncWorker`) and their score-transform functions.  External engine
interactions are modelled oracle-style: each service method receives the
engine's response (an `Except` value: `.ok` for a successful response,
`.error` for a connectivity/engine failure) and the Lean function mirrors
the JavaScript control flow around it, including `catch` blocks.
JavaScript falsiness on optional numeric/string fields is modelled
explicitly by the `jsOr*` helpers.
-/

/-- Engine-level error, as surfaced by the Elasticsearch client
(`error.meta.statusCode` carries the HTTP status). -/
structure EsError where
  statusCode : Nat
  deriving Repr, DecidableEq

/-- Outcome of an engine interaction: `.ok` response or `.error` failure. -/
abbrev EngineResult (α : Type) := Except EsError α

/-- Boolean test that an `Except` value resolved rather than threw. -/
def resolvesOk {ε α : Type} : Except ε α → Bool
  | .ok _ => true
  | .error _ => false

deriving instance DecidableEq for Except

/-- JavaScript `a || b` on an optional number: `undefined` and `0` are
falsy, so both fall through to the default. -/
def jsOrNat (a : Option Nat) (d : Nat) : Nat :=
  match a with
  | some n => if n = 0 then d else n
  | none => d

/-- JavaScript `a || b` on an optional string: `undefined` and `""` are
falsy, so both fall through to the default. -/
def jsOrString (a : Option String) (d : String) : String :=
  match a with
  | some s => if s = "" then d else s
  | none => d

/-- JavaScript `a || b` where both sides are optional strings. -/
def jsOrStringOpt (a : Option String) (b : Option String) : Option String :=
  match a with
  | some s => if s = "" then b else some s
  | none => b

/-- MongoDB ObjectId, modelled by its string rendering. -/
structure MongoId where
  oid : String
  deriving Repr, DecidableEq

/-- Rendering of an ObjectId as a string (JavaScript `_id.toString()`). -/
def MongoId.toString (m : MongoId) : String := m.oid

/- ## Score-transform functions (IndexSyncWorker, part_004 lines 242-277) -/

/-- Time-decay factor used by the engagement score:
`Math.pow(0.95, ageInHours / 24)`. -/
noncomputable def decay (ageHours : ℝ) : ℝ :=
  (0.95 : ℝ) ^ (ageHours / 24)

/-- Core of `IndexSyncWorker.calculateEngagementScore` on the extracted
counters: `const views = post.views || 1` (so a zero view count is
replaced by 1), `engagement = (likes*1 + comments*3 + shares*5) / views`,
returned as `engagement * decay * 100`. -/
noncomputable def engagementScore (likes comments shares views : ℕ) (ageHours : ℝ) : ℝ :=
  let v : ℕ := if views = 0 then 1 else views
  ((likes * 1 + comments * 3 + shares * 5 : ℕ) : ℝ) / (v : ℝ) * decay ageHours * 100

/-- Core of `IndexSyncWorker.calculatePopularityScore`:
`likes * 1 + comments * 2 + shares * 3`. -/
def popularityScore (likes comments shares : ℕ) : ℕ :=
  likes * 1 + comments * 2 + shares * 3

/-- Recency boost of `IndexSyncWorker.calculateTrendScore`:
`Math.max(0, 1 - ageInHours / 168)` (7-day linear decay). -/
def recencyBoost (ageInHours : ℚ) : ℚ :=
  max 0 (1 - ageInHours / 168)

/-- Trend score as a function of the hashtag count and the age in hours:
`count * (1 + recencyBoost)`. -/
def trendScoreOfAge (count : ℕ) (ageInHours : ℚ) : ℚ :=
  (count : ℚ) * (1 + recencyBoost ageInHours)

/-- The `IndexSyncWorker.calculateTrendScore(count, lastUsed)` method:
the age is `(Date.now() - lastUsed) / (1000 * 60 * 60)` hours, with
timestamps in milliseconds. -/
def IndexSyncWorker.calculateTrendScore (nowMs : ℚ) (count : ℕ) (lastUsed : ℚ) : ℚ :=
  let ageInHours : ℚ := (nowMs - lastUsed) / (1000 * 60 * 60)
  trendScoreOfAge count ageInHours

/-- Formula for the engagement score as the specification words it, with
an explicit `max(views, 1)` denominator. -/
noncomputable def engagementScoreSpec (likes comments shares views : ℕ) (ageHours : ℝ) : ℝ :=
  (((likes * 1 + comments * 3 + shares * 5 : ℕ) : ℝ) / ((max views 1 : ℕ) : ℝ))
    * decay ageHours * 100

/- ## Hashtag extraction (IndexSyncWorker.extractHashtags) -/

/-- Characters matched by the `\w` class of the regex `#[\w]+`. -/
def isWordChar (c : Char) : Bool :=
  c.isAlpha || c.isDigit || c = '_'

/-- Dropping a prefix never lengthens a list. -/
theorem length_dropWhile_le_self (p : Char → Bool) (l : List Char) :
    (l.dropWhile p).length ≤ l.length := by
  induction l with
  | nil => simp [List.dropWhile]
  | cons c rest ih =>
    simp only [List.dropWhile]
    split
    · exact Nat.le_succ_of_le ih
    · exact Nat.le_refl _

/-- Scanner for the global regex `#[\w]+`: find each `#` followed by at
least one word character, take the maximal run of word characters, and
continue after the match. -/
def scanTags : List Char → List String
  | [] => []
  | c :: rest =>
    if c = '#' then
      let w := rest.takeWhile isWordChar
      if w.isEmpty then scanTags rest
      else ("#" ++ String.mk w) :: scanTags (rest.dropWhile isWordChar)
    else scanTags rest
  termination_by cs => cs.length
  decreasing_by
    all_goals simp only [List.length_cons]
    all_goals first
      | omega
      | (have h := length_dropWhile_le_self isWordChar rest; omega)

/-- The `IndexSyncWorker.extractHashtags(text)` method: `!text` guards
both a missing and an empty caption, and each match is lowercased. -/
def IndexSyncWorker.extractHashtags (text : Option String) : List String :=
  match text with
  | none => []
  | some s => if s = "" then [] else (scanTags s.toList).map String.toLower

/- ## Document transformer (IndexSyncWorker.transformPost / transformUser) -/

/-- Author sub-document populated on a post (`author`, projected to
`username displayName`). -/
structure AuthorRow where
  _id : MongoId
  username : Option String
  displayName : Option String
  deriving Repr, DecidableEq

/-- GeoJSON-style location stored on a post (`coordinates = [lon, lat]`). -/
structure LocationRow where
  coordinates : List ℚ
  deriving Repr, DecidableEq

/-- Raw post row as read from the primary datastore.  Optional fields
model properties that may be absent on the lean document. -/
structure PostRow where
  _id : MongoId
  author : Option AuthorRow
  userId : Option String
  caption : Option String
  content : Option String
  tags : Option (List String)
  category : Option String
  mediaType : Option String
  visibility : Option String
  tenantId : Option MongoId
  likes : Option (List String)
  comments : Option (List String)
  likeCount : Option ℕ
  commentCount : Option ℕ
  shares : Option ℕ
  views : Option ℕ
  createdAt : ℚ
  updatedAt : ℚ
  location : Option LocationRow
  embedding : Option (List ℚ)
  deriving Repr, DecidableEq

/-- Extraction `post.likes?.length || post.likeCount || 0` shared by the
transformer and the engagement/popularity scores. -/
def PostRow.likesCount (post : PostRow) : ℕ :=
  jsOrNat (post.likes.map List.length) (jsOrNat post.likeCount 0)

/-- Extraction `post.comments?.length || post.commentCount || 0`. -/
def PostRow.commentsCount (post : PostRow) : ℕ :=
  jsOrNat (post.comments.map List.length) (jsOrNat post.commentCount 0)

/-- Extraction `post.shares || 0`. -/
def PostRow.sharesCount (post : PostRow) : ℕ :=
  jsOrNat post.shares 0

/-- The `IndexSyncWorker.calculateEngagementScore(post)` method: extracts
the counters (`views || 1`), computes the weighted engagement rate, the
age in hours from `createdAt` to now (milliseconds), and applies decay. -/
noncomputable def IndexSyncWorker.calculateEngagementScore (nowMs : ℚ) (post : PostRow) : ℝ :=
  engagementScore post.likesCount post.commentsCount post.sharesCount
    (jsOrNat post.views 1) (((nowMs - post.createdAt) / (1000 * 60 * 60) : ℚ) : ℝ)

/-- The `IndexSyncWorker.calculatePopularityScore(post)` method. -/
def IndexSyncWorker.calculatePopularityScore (post : PostRow) : ℕ :=
  popularityScore post.likesCount post.commentsCount post.sharesCount

/-- Geo point emitted on a post document. -/
structure GeoPoint where
  lat : Option ℚ
  lon : Option ℚ
  deriving Repr, DecidableEq

/-- Post document shape written to the posts index. -/
structure PostDoc where
  _id : String
  userId : Option String
  username : Option String
  displayName : Option String
  caption : Option String
  content : Option String
  tags : List String
  hashtags : List String
  category : Option String
  mediaType : String
  visibility : String
  tenantId : Option String
  likes : ℕ
  comments : ℕ
  shares : ℕ
  views : ℕ
  engagementScore : ℝ
  popularityScore : ℕ
  createdAt : ℚ
  updatedAt : ℚ
  isPublic : Bool
  location : Option GeoPoint
  embedding : Option (List ℚ)

/-- The `IndexSyncWorker.transformPost(post)` method (part_004 lines
172-201), field by field. -/
noncomputable def IndexSyncWorker.transformPost (nowMs : ℚ) (post : PostRow) : PostDoc :=
  { _id := post._id.toString
    userId := jsOrStringOpt (post.author.map (fun a => a._id.toString)) post.userId
    username := post.author.bind AuthorRow.username
    displayName := post.author.bind AuthorRow.displayName
    caption := post.caption
    content := post.content
    tags := post.tags.getD []
    hashtags := IndexSyncWorker.extractHashtags post.caption
    category := post.category
    mediaType := jsOrString post.mediaType "text"
    visibility := jsOrString post.visibility "public"
    tenantId := post.tenantId.map MongoId.toString
    likes := post.likesCount
    comments := post.commentsCount
    shares := post.sharesCount
    views := jsOrNat post.views 0
    engagementScore := IndexSyncWorker.calculateEngagementScore nowMs post
    popularityScore := IndexSyncWorker.calculatePopularityScore post
    createdAt := post.createdAt
    updatedAt := post.updatedAt
    isPublic := post.visibility != some "private"
    location := post.location.map (fun l => { lat := l.coordinates.get? 1, lon := l.coordinates.get? 0 })
    embedding := post.embedding }

/-- Raw user row as read from the primary datastore (password/tokens
already projected away). -/
structure UserRow where
  _id : MongoId
  username : Option String
  displayName : Option String
  name : Option String
  firstName : Option String
  lastName : Option String
  bio : Option String
  email : Option String
  college : Option String
  department : Option String
  tenantId : Option MongoId
  interests : Option (List String)
  skills : Option (List String)
  followers : Option (List String)
  following : Option (List String)
  followerCount : Option ℕ
  followingCount : Option ℕ
  postCount : Option ℕ
  verified : Option Bool
  createdAt : ℚ
  lastActive : Option ℚ
  updatedAt : ℚ
  embedding : Option (List ℚ)
  deriving Repr, DecidableEq

/-- User document shape written to the users index. -/
structure UserDoc where
  _id : String
  username : Option String
  displayName : Option String
  firstName : Option String
  lastName : Option String
  bio : Option String
  email : Option String
  college : Option String
  department : Option String
  tenantId : Option String
  interests : List String
  skills : List String
  followers : ℕ
  following : ℕ
  posts : ℕ
  verified : Bool
  createdAt : ℚ
  lastActive : ℚ
  embedding : Option (List ℚ)
  deriving Repr, DecidableEq

/-- The `IndexSyncWorker.transformUser(user)` method (part_004 lines
206-228), field by field.  `displayName || name`, `lastActive ||
updatedAt` and `verified || false` follow JavaScript falsiness. -/
def IndexSyncWorker.transformUser (user : UserRow) : UserDoc :=
  { _id := user._id.toString
    username := user.username
    displayName := jsOrStringOpt user.displayName user.name
    firstName := user.firstName
    lastName := user.lastName
    bio := user.bio
    email := user.email
    college := user.college
    department := user.department
    tenantId := user.tenantId.map MongoId.toString
    interests := user.interests.getD []
    skills := user.skills.getD []
    followers := jsOrNat (user.followers.map List.length) (jsOrNat user.followerCount 0)
    following := jsOrNat (user.following.map List.length) (jsOrNat user.followingCount 0)
    posts := jsOrNat user.postCount 0
    verified := (user.verified.getD false)
    createdAt := user.createdAt
    lastActive := user.lastActive.getD user.updatedAt
    embedding := user.embedding }

/- ## Hashtag sync (IndexSyncWorker.syncHashtags, part_004 lines 136-167) -/

/-- Aggregation row produced by grouping posts on their `hashtags`
entries: `_id` is the tag value itself, with a usage count and the most
recent `createdAt`. -/
structure HashtagAgg where
  _id : String
  count : ℕ
  lastUsed : ℚ
  deriving Repr, DecidableEq

/-- Removal of the first `#` occurrence, as JavaScript
`h._id.replace('#', '')` with a string pattern replaces only the first
match. -/
def removeFirstHash : List Char → List Char
  | [] => []
  | c :: rest => if c = '#' then rest else c :: removeFirstHash rest

/-- Hashtag document built by `IndexSyncWorker.syncHashtags` for one
aggregation row: the document id is the grouping key (the tag text). -/
structure HashtagDoc where
  _id : String
  tag : String
  count : ℕ
  lastUsed : ℚ
  trendScore : ℚ
  deriving Repr, DecidableEq

/-- Document mapping inside `IndexSyncWorker.syncHashtags`:
`{_id: h._id, tag: h._id.replace('#',''), count, lastUsed, trendScore}`. -/
def IndexSyncWorker.hashtagDocument (nowMs : ℚ) (h : HashtagAgg) : HashtagDoc :=
  { _id := h._id
    tag := String.mk (removeFirstHash h._id.toList)
    count := h.count
    lastUsed := h.lastUsed
    trendScore := IndexSyncWorker.calculateTrendScore nowMs h.count h.lastUsed }

/- ## Search engine index names (config/elasticsearch.js) -/

/-- Index name constants from the `INDICES` map. -/
def INDICES.POSTS : String := "college_media_posts"

/-- Users index name. -/
def INDICES.USERS : String := "college_media_users"

/-- Hashtags index name. -/
def INDICES.HASHTAGS : String := "college_media_hashtags"

/- ## SearchService read paths (backend/services/searchService.js) -/

/-- Raw hit inside an engine search response.  The `_source` payload is
kept opaque as a key/value list; the engine only returns fields the
request's `_source` selector admits. -/
structure RawHit where
  _id : String
  _index : String
  _score : ℚ
  _source : List (String × String)
  highlight : Option (List (String × String))
  deriving Repr, DecidableEq

/-- Aggregation bucket of an engine response. -/
structure RawBucket where
  key : String
  doc_count : ℕ
  deriving Repr, DecidableEq

/-- One aggregation of an engine response; only bucketed aggregations
carry a `buckets` array. -/
structure RawAgg where
  buckets : Option (List RawBucket)
  deriving Repr, DecidableEq

/-- Engine response to a `client.search` call as `search` consumes it. -/
structure RawSearchResponse where
  totalValue : ℕ
  hits : List RawHit
  took : ℕ
  aggregations : Option (List (String × RawAgg))
  deriving Repr, DecidableEq

/-- Formatted hit produced by `formatSearchResults`. -/
structure FormattedHit where
  id : String
  index : String
  score : ℚ
  payload : List (String × String)
  highlights : Option (List (String × String))
  deriving Repr, DecidableEq

/-- Formatted result of `search`: total count, hits, timing, and facet
buckets when the response carried bucketed aggregations. -/
structure SearchResults where
  total : ℕ
  hits : List FormattedHit
  took : ℕ
  facets : Option (List (String × List (String × ℕ)))
  deriving Repr, DecidableEq

/-- The `formatSearchResults(result, type)` helper: maps hits, copies the
total and timing, and turns every bucketed aggregation into a facet list
of `{value, count}` pairs. -/
def formatSearchResults (r : RawSearchResponse) : SearchResults :=
  { total := r.totalValue
    hits := r.hits.map (fun h =>
      { id := h._id, index := h._index, score := h._score,
        payload := h._source, highlights := h.highlight })
    took := r.took
    facets := r.aggregations.map (fun aggs =>
      (aggs.filterMap (fun kv =>
        kv.2.buckets.map (fun bs =>
          (kv.1, bs.map (fun b => (b.key, b.doc_count))))))) }

/-- The `SearchService.search` method around the engine call: a
successful response is formatted; the `catch` block logs the error and
re-throws it (`throw error`), so an engine failure propagates. -/
def SearchService.search (engine : EngineResult RawSearchResponse) : EngineResult SearchResults :=
  match engine with
  | .ok r => .ok (formatSearchResults r)
  | .error e => .error e

/-- Post hit consumed by the autocomplete posts branch
(`_source: ['caption', 'category']`). -/
structure PostAcHit where
  caption : Option String
  category : Option String
  deriving Repr, DecidableEq

/-- User hit consumed by the autocomplete users branch
(`_source: ['username', 'displayName', 'verified']`). -/
structure UserAcHit where
  username : Option String
  displayName : Option String
  verified : Option Bool
  deriving Repr, DecidableEq

/-- Hashtag hit consumed by the autocomplete hashtags branch
(`_source: ['tag', 'count']`). -/
structure TagAcHit where
  tag : String
  count : ℕ
  deriving Repr, DecidableEq

/-- Autocomplete suggestion, one constructor per branch. -/
inductive Suggestion where
  | post (text : Option String) (category : Option String)
  | user (text : Option String) (displayName : Option String) (verified : Option Bool)
  | hashtag (text : String) (count : ℕ)
  deriving Repr, DecidableEq

/-- Suggestion mapping of the posts branch:
`text: hit._source.caption?.substring(0, 100)`. -/
def postSuggestion (h : PostAcHit) : Suggestion :=
  .post (h.caption.map (fun c => c.take 100)) h.category

/-- Suggestion mapping of the users branch. -/
def userSuggestion (h : UserAcHit) : Suggestion :=
  .user h.username h.displayName h.verified

/-- Suggestion mapping of the hashtags branch: `text: '#' + tag`. -/
def tagSuggestion (h : TagAcHit) : Suggestion :=
  .hashtag ("#" ++ h.tag) h.count

/-- The `SearchService.autocomplete(prefix, {type, size})` method.  The
three branches run in order (posts, users, hashtags) when selected by
`type`; each issues one engine query.  There is no empty-prefix guard:
the posts and users branches pass the prefix straight into their
queries, and the hashtags branch evaluates `prefix.replace('#', '')`,
which raises a `TypeError` when the prefix is `null`.  Any error —
engine failure or the `TypeError` — lands in the surrounding `catch`,
which returns `[]`.  The result pairs the returned suggestion list with
the number of engine queries issued (instrumentation for the model). -/
def SearchService.autocomplete (pre : Option String) (type : String) (size : ℕ)
    (postsResp : EngineResult (List PostAcHit))
    (usersResp : EngineResult (List UserAcHit))
    (tagsResp : EngineResult (List TagAcHit)) :
    EngineResult (List Suggestion × ℕ) :=
  let runPosts : Bool := type == "all" || type == "posts"
  let runUsers : Bool := type == "all" || type == "users"
  let runTags : Bool := type == "all" || type == "hashtags"
  let stage1 : Except ℕ (List Suggestion × ℕ) :=
    if runPosts then
      match postsResp with
      | .ok ph => .ok (ph.map postSuggestion, 1)
      | .error _ => .error 1
    else .ok ([], 0)
  let stage2 : Except ℕ (List Suggestion × ℕ) :=
    match stage1 with
    | .error n => .error n
    | .ok (s, n) =>
      if runUsers then
        match usersResp with
        | .ok uh => .ok (s ++ uh.map userSuggestion, n + 1)
        | .error _ => .error (n + 1)
      else .ok (s, n)
  let stage3 : Except ℕ (List Suggestion × ℕ) :=
    match stage2 with
    | .error n => .error n
    | .ok (s, n) =>
      if runTags then
        match pre with
        | none => .error n
        | some _ =>
          match tagsResp with
          | .ok th => .ok (s ++ th.map tagSuggestion, n + 1)
          | .error _ => .error (n + 1)
      else .ok (s, n)
  match stage3 with
  | .ok (s, n) => .ok (s.take size, n)
  | .error n => .ok ([], n)

/- ## KNN recommendation and similarity queries -/

/-- Body of a `knn` clause: field, query vector, `k` and
`num_candidates`. -/
structure KnnQuery where
  field : String
  query_vector : List ℚ
  k : ℕ
  num_candidates : ℕ
  deriving Repr, DecidableEq

/-- KNN search request as the service issues it: target index, `knn`
clause, and the `_source.excludes` selector. -/
structure KnnRequest where
  index : String
  knn : KnnQuery
  sourceExcludes : List String
  deriving Repr, DecidableEq

/-- Hit of a KNN search response; `payload` is the `_source` content the
engine returns under the request's excludes selector. -/
structure KnnHit where
  _id : String
  _score : ℚ
  payload : List (String × String)
  deriving Repr, DecidableEq

/-- Stored user source consumed by `getRecommendations` (only the
embedding matters to the control flow). -/
structure StoredUser where
  embedding : Option (List ℚ)
  deriving Repr, DecidableEq

/-- Stored document source consumed by `findSimilar`. -/
structure StoredDoc where
  embedding : Option (List ℚ)
  deriving Repr, DecidableEq

/-- Recommendation/popular item: `{id, score?, ...hit._source, reason}`
(the popular mapping carries no score). -/
structure RecItem where
  id : String
  score : Option ℚ
  payload : List (String × String)
  reason : String
  deriving Repr, DecidableEq

/-- Similar-content item: `{id, score, ...hit._source}`. -/
structure SimItem where
  id : String
  score : ℚ
  payload : List (String × String)
  deriving Repr, DecidableEq

/-- Target index selection `type === 'posts' ? INDICES.POSTS :
INDICES.USERS` shared by the KNN paths. -/
def knnTargetIndex (type : String) : String :=
  if type == "posts" then INDICES.POSTS else INDICES.USERS

/-- KNN request built by `getRecommendations` for a user embedding:
`k = size`, `num_candidates = size * 5`, `_source.excludes =
['embedding']`. -/
def recommendationRequest (type : String) (emb : List ℚ) (size : ℕ) : KnnRequest :=
  { index := knnTargetIndex type
    knn := { field := "embedding", query_vector := emb, k := size, num_candidates := size * 5 }
    sourceExcludes := ["embedding"] }

/-- The `SearchService.getPopularContent(type, size, tenantId)` method
around the engine call: hits become `{id, ...source, reason: 'popular'}`;
the `catch` block returns `[]`. -/
def SearchService.getPopularContent (engine : EngineResult (List KnnHit)) :
    EngineResult (List RecItem) :=
  match engine with
  | .ok hits => .ok (hits.map (fun h => ⟨h._id, none, h.payload, "popular"⟩))
  | .error _ => .ok []

/-- The `SearchService.getRecommendations(userId, {type, size})` method.
The user lookup's `.catch(() => null)` turns a failed get into `null`;
a missing user or missing embedding falls back to `getPopularContent`.
Otherwise a KNN request is issued through `knnEngine`; its hits are
mapped to `{id, score, ...source, reason: 'personalized'}`, and an
engine failure there also falls back to `getPopularContent`. -/
def SearchService.getRecommendations (type : String) (size : ℕ)
    (userLookup : EngineResult StoredUser)
    (knnEngine : KnnRequest → EngineResult (List KnnHit))
    (popularResp : EngineResult (List KnnHit)) :
    EngineResult (List RecItem) :=
  let user : Option StoredUser :=
    match userLookup with
    | .ok u => some u
    | .error _ => none
  match user with
  | none => SearchService.getPopularContent popularResp
  | some u =>
    match u.embedding with
    | none => SearchService.getPopularContent popularResp
    | some emb =>
      match knnEngine (recommendationRequest type emb size) with
      | .ok hits => .ok (hits.map (fun h => ⟨h._id, some h._score, h.payload, "personalized"⟩))
      | .error _ => SearchService.getPopularContent popularResp

/-- KNN request built by `findSimilar` for the source document's
embedding: `k = size + 1` (to tolerate the source document in its own
neighbor set), `num_candidates = size * 5`. -/
def similarRequest (type : String) (emb : List ℚ) (size : ℕ) : KnnRequest :=
  { index := knnTargetIndex type
    knn := { field := "embedding", query_vector := emb, k := size + 1, num_candidates := size * 5 }
    sourceExcludes := ["embedding"] }

/-- The `SearchService.findSimilar(id, type, size)` method.  A failed
source lookup lands in the `catch` and yields `[]`; a source without an
embedding yields `[]`; otherwise the KNN hits are filtered on
`hit._id !== id`, sliced to `size` and mapped to `{id, score,
...source}` (an engine failure again yields `[]` via the `catch`). -/
def SearchService.findSimilar (id : String) (type : String) (size : ℕ)
    (getDoc : EngineResult StoredDoc)
    (knnEngine : KnnRequest → EngineResult (List KnnHit)) :
    EngineResult (List SimItem) :=
  match getDoc with
  | .error _ => .ok []
  | .ok doc =>
    match doc.embedding with
    | none => .ok []
    | some emb =>
      match knnEngine (similarRequest type emb size) with
      | .error _ => .ok []
      | .ok hits =>
        .ok (((hits.filter (fun h => h._id != id)).take size).map
          (fun h => ⟨h._id, h._score, h.payload⟩))

/-- Trending item `{id, ...hit._source}`. -/
structure TrendItem where
  id : String
  payload : List (String × String)
  deriving Repr, DecidableEq

/-- The `SearchService.getTrending(options)` method around the engine
call: hits become `{id, ...source}`; the `catch` block returns `[]`. -/
def SearchService.getTrending (engine : EngineResult (List KnnHit)) :
    EngineResult (List TrendItem) :=
  match engine with
  | .ok hits => .ok (hits.map (fun h => ⟨h._id, h.payload⟩))
  | .error _ => .ok []

/- ## SearchService write paths -/

/-- The `SearchService.indexDocument(index, id, document)` method: a
successful engine call returns `true`; the `catch` logs and returns
`false` — never throws. -/
def SearchService.indexDocument (engine : EngineResult Unit) : EngineResult Bool :=
  match engine with
  | .ok _ => .ok true
  | .error _ => .ok false

/-- The `SearchService.updateDocument(index, id, updates)` method: same
catch-to-`false` shape as `indexDocument`. -/
def SearchService.updateDocument (engine : EngineResult Unit) : EngineResult Bool :=
  match engine with
  | .ok _ => .ok true
  | .error _ => .ok false

/-- The `SearchService.deleteDocument(index, id)` method: a successful
engine delete returns `true`; every engine error — including the 404 a
delete of an absent id produces — is caught, logged and turned into
`false`. -/
def SearchService.deleteDocument (engine : EngineResult Unit) : EngineResult Bool :=
  match engine with
  | .ok _ => .ok true
  | .error _ => .ok false

/-- Engine "not found" error for a delete of an absent id. -/
def notFoundError : EsError := ⟨404⟩

/-- Observable outcome of `IndexSyncWorker.deleteDocument`: the promise
resolution (the function returns `undefined` in every branch) and
whether the catch block logged the error (`statusCode !== 404`). -/
structure WorkerDeleteOutcome where
  result : EngineResult Unit
  logged : Bool
  deriving Repr, DecidableEq

/-- The `IndexSyncWorker.deleteDocument(index, id)` method (part_004
lines 341-353): every engine error is caught; a 404 is not even logged,
so deleting an absent id is indistinguishable from a successful
delete. -/
def IndexSyncWorker.deleteDocument (engine : EngineResult Unit) : WorkerDeleteOutcome :=
  match engine with
  | .ok _ => ⟨.ok (), false⟩
  | .error e => ⟨.ok (), decide (e.statusCode ≠ 404)⟩

/- ## Bulk indexing -/

/-- Document submitted to `SearchService.bulkIndex`; `_id` and `id` are
both optional, the action id is `doc._id || doc.id`. -/
structure BulkDoc where
  _id : Option String
  id : Option String
  payload : List (String × String)
  deriving Repr, DecidableEq

/-- Bulk action header `{index: {_index, _id}}`. -/
structure BulkAction where
  _index : String
  _id : Option String
  deriving Repr, DecidableEq

/-- Operations list built by `SearchService.bulkIndex`:
`documents.flatMap(doc => [{index: {_index, _id: doc._id || doc.id}},
doc])`. -/
def SearchService.bulkOperations (index : String) (documents : List BulkDoc) :
    List (BulkAction ⊕ BulkDoc) :=
  documents.flatMap (fun doc =>
    [.inl ⟨index, jsOrStringOpt doc._id doc.id⟩, .inr doc])

/-- Item of an engine bulk response; `indexError` is the
`item.index.error` field, present exactly on rejected documents. -/
structure BulkItem where
  indexError : Option String
  deriving Repr, DecidableEq

/-- Engine bulk response: the top-level `errors` flag and the per-item
results. -/
structure BulkResponse where
  errors : Bool
  items : List BulkItem
  deriving Repr, DecidableEq

/-- Structured result of `SearchService.bulkIndex`. -/
structure BulkResult where
  success : Bool
  indexed : ℕ
  errors : List BulkItem
  deriving Repr, DecidableEq

/-- The `SearchService.bulkIndex(index, documents)` method: on a
successful bulk call it returns `{success: !result.errors, indexed:
documents.length, errors: result.errors ? items.filter(i =>
i.index.error) : []}`; an engine-level failure is logged and re-thrown
(`throw error`). -/
def SearchService.bulkIndex (documents : List BulkDoc)
    (engine : EngineResult BulkResponse) : EngineResult BulkResult :=
  match engine with
  | .error e => .error e
  | .ok r =>
    .ok { success := !r.errors
          indexed := documents.length
          errors := if r.errors then r.items.filter (fun i => i.indexError.isSome) else [] }

/- ## Theorems -/

/-- Helper: the `views || 1` denominator equals `max(views, 1)` on
natural numbers. -/
theorem viewsDenom_eq_max (views : ℕ) : (if views = 0 then 1 else views) = max views 1 := by
  split <;> omega

/-- C3: for all non-negative likes, comments, shares, views and
ageHours, the engagement score equals
`((likes*1 + comments*3 + shares*5) / max(views,1)) * (0.95 ^ (ageHours/24)) * 100`
and is non-negative; likes=10, comments=2, shares=1, views=100,
ageHours=0 yields 21, and `popularityScore(10,2,1) = 17`. -/
theorem engagementScore_matches_spec :
    (∀ (likes comments shares views : ℕ) (ageHours : ℝ),
        engagementScore likes comments shares views ageHours =
          engagementScoreSpec likes comments shares views ageHours ∧
        0 ≤ engagementScore likes comments shares views ageHours) ∧
    engagementScore 10 2 1 100 0 = 21 ∧
    popularityScore 10 2 1 = 17 := by
  refine ⟨fun likes comments shares views ageHours => ⟨?_, ?_⟩, ?_, ?_⟩
  · simp only [engagementScore, engagementScoreSpec, viewsDenom_eq_max]
  · have hdecay : 0 ≤ decay ageHours := by
      unfold decay
      exact Real.rpow_nonneg (by norm_num) _
    unfold engagementScore
    positivity
  · have h0 : decay 0 = 1 := by
      unfold decay
      norm_num
    simp only [engagementScore, h0]
    norm_num
  · rfl

/-- C4: for every fixed count, the trend score
`count * (1 + max(0, 1 - ageHours/168))` is monotonically non-increasing
in ageHours, equals `count` for every ageHours ≥ 168, evaluates to 30 at
count=20, ageHours=84, and `calculateTrendScore` computes exactly this on
the age derived from the timestamps. -/
theorem trendScore_monotone_and_saturates :
    ∀ (count : ℕ) (a b : ℚ),
      (a ≤ b → trendScoreOfAge count b ≤ trendScoreOfAge count a) ∧
      (168 ≤ a → trendScoreOfAge count a = count) ∧
      trendScoreOfAge 20 84 = 30 ∧
      (∀ nowMs lastUsed : ℚ,
        IndexSyncWorker.calculateTrendScore nowMs count lastUsed =
          trendScoreOfAge count ((nowMs - lastUsed) / (1000 * 60 * 60))) := by
  intro count a b
  refine ⟨?_, ?_, ?_, fun nowMs lastUsed => rfl⟩
  · intro hab
    unfold trendScoreOfAge
    apply mul_le_mul_of_nonneg_left _ (by positivity)
    have : recencyBoost b ≤ recencyBoost a := by
      unfold recencyBoost
      apply max_le_max le_rfl
      have h168 : (0:ℚ) < 168 := by norm_num
      linarith [(div_le_div_iff_of_pos_right h168).mpr hab]
    linarith
  · intro ha
    unfold trendScoreOfAge recencyBoost
    have hz : (1 : ℚ) - a / 168 ≤ 0 := by
      have : (1:ℚ) ≤ a / 168 := (le_div_iff₀ (by norm_num)).mpr (by linarith)
      linarith
    rw [max_eq_left hz]
    ring
  · unfold trendScoreOfAge recencyBoost
    rw [show ((1:ℚ) - 84 / 168) = 1/2 by norm_num, max_eq_right (by norm_num)]
    norm_num

/-- Witness for C4 at concrete inputs. -/
theorem trendScore_monotone_and_saturates_witness :
    trendScoreOfAge 5 200 ≤ trendScoreOfAge 5 100 ∧
    trendScoreOfAge 5 200 = 5 ∧
    trendScoreOfAge 20 84 = 30 :=
  ⟨(trendScore_monotone_and_saturates 5 100 200).1 (by norm_num),
   (trendScore_monotone_and_saturates 5 200 0).2.1 (by norm_num),
   (trendScore_monotone_and_saturates 20 0 0).2.2.1⟩

/-- C1 counterexample: an engine-level error during `search` (here a 503,
engine unreachable) is re-thrown by the catch block, so the call does not
resolve to a result set — refuting "returns an empty/fallback result and
never propagates the error". -/
theorem search_propagates_error_counterexample :
    resolvesOk (SearchService.search (Except.error ⟨503⟩)) = false ∧
    SearchService.search (Except.error ⟨503⟩) = Except.error ⟨503⟩ :=
  ⟨rfl, rfl⟩

set_option maxRecDepth 8000 in
/-- C1 amended: `search` re-throws every engine-level error to its
caller, while the other read paths (autocomplete, recommendations,
trending, similar, popular) never propagate an exception and convert
every engine-level error into an empty or fallback result: a failing
autocomplete engine call makes the catch return the empty suggestion
list (for each selected type and each failing branch), a failed user
lookup or failed KNN query in `getRecommendations` falls back to
`getPopularContent`, and `getTrending`, `findSimilar` (failed lookup or
failed KNN query) and `getPopularContent` return `[]` on engine
failure. -/
theorem readPath_error_policy :
    ∀ (e : EsError)
      (pre : Option String) (type : String) (size : ℕ)
      (pResp : EngineResult (List PostAcHit))
      (uResp : EngineResult (List UserAcHit))
      (tResp : EngineResult (List TagAcHit))
      (ph : List PostAcHit) (uh : List UserAcHit) (p0 : String)
      (emb : List ℚ)
      (userLookup : EngineResult StoredUser)
      (knnEngine : KnnRequest → EngineResult (List KnnHit))
      (popularResp : EngineResult (List KnnHit))
      (id : String) (getDoc : EngineResult StoredDoc)
      (trendResp : EngineResult (List KnnHit)),
      SearchService.search (Except.error e) = Except.error e ∧
      SearchService.autocomplete pre "all" size (.error e) uResp tResp = .ok ([], 1) ∧
      SearchService.autocomplete pre "all" size (.ok ph) (.error e) tResp = .ok ([], 2) ∧
      SearchService.autocomplete (some p0) "all" size (.ok ph) (.ok uh) (.error e) = .ok ([], 3) ∧
      SearchService.autocomplete pre "posts" size (.error e) uResp tResp = .ok ([], 1) ∧
      SearchService.autocomplete pre "users" size pResp (.error e) tResp = .ok ([], 1) ∧
      SearchService.autocomplete (some p0) "hashtags" size pResp uResp (.error e) = .ok ([], 1) ∧
      SearchService.getRecommendations type size (.error e) knnEngine popularResp =
        SearchService.getPopularContent popularResp ∧
      SearchService.getRecommendations type size (.ok ⟨some emb⟩) (fun _ => .error e) popularResp =
        SearchService.getPopularContent popularResp ∧
      SearchService.getTrending (.error e) = .ok [] ∧
      SearchService.findSimilar id type size (.error e) knnEngine = .ok [] ∧
      SearchService.findSimilar id type size (.ok ⟨some emb⟩) (fun _ => .error e) = .ok [] ∧
      SearchService.getPopularContent (.error e) = .ok [] ∧
      resolvesOk (SearchService.autocomplete pre type size pResp uResp tResp) = true ∧
      resolvesOk (SearchService.getRecommendations type size userLookup knnEngine popularResp) = true ∧
      resolvesOk (SearchService.getTrending trendResp) = true ∧
      resolvesOk (SearchService.findSimilar id type size getDoc knnEngine) = true ∧
      resolvesOk (SearchService.getPopularContent popularResp) = true := by
  intro e pre type size pResp uResp tResp ph uh p0 emb userLookup knnEngine popularResp id
    getDoc trendResp
  have hpop : resolvesOk (SearchService.getPopularContent popularResp) = true := by
    cases popularResp <;> rfl
  refine ⟨rfl, rfl, rfl, rfl, rfl, rfl, rfl, rfl, rfl, rfl, rfl, rfl, rfl, ?_, ?_, ?_, ?_, hpop⟩
  · unfold SearchService.autocomplete
    dsimp only
    split <;> rfl
  · unfold SearchService.getRecommendations
    cases userLookup with
    | error err => exact hpop
    | ok u =>
      dsimp only
      cases u.embedding with
      | none => exact hpop
      | some emb2 =>
        dsimp only
        cases knnEngine (recommendationRequest type emb2 size) with
        | ok hits => rfl
        | error err => exact hpop
  · cases trendResp <;> rfl
  · unfold SearchService.findSimilar
    cases getDoc with
    | error err => rfl
    | ok doc =>
      dsimp only
      cases doc.embedding with
      | none => rfl
      | some emb2 =>
        dsimp only
        cases knnEngine (similarRequest type emb2 size) with
        | ok hits => rfl
        | error err => rfl

set_option maxRecDepth 8000 in
/-- C2 counterexample: with an empty prefix and default type `all`,
`autocomplete` still issues three engine queries (the second component
counts `client.search` calls) and returns whatever suggestions the
engine's hits yield — not the unconditional empty list; with a `null`
prefix, the posts and users branches have already queried the engine
before the hashtag branch's `prefix.replace` raises the `TypeError` the
catch turns into `[]`.  This refutes "issue no query to the engine". -/
theorem autocomplete_no_short_circuit_counterexample :
    SearchService.autocomplete (some "") "all" 10
        (.ok [⟨some "hello", none⟩]) (.ok []) (.ok [])
      = .ok ([Suggestion.post (some "hello") none], 3) ∧
    SearchService.autocomplete none "all" 10 (.ok []) (.ok []) (.ok [])
      = .ok ([], 2) := by
  constructor <;> rfl

set_option maxRecDepth 8000 in
/-- C2 amended: `autocomplete` has no empty/null-prefix short-circuit.
For type `all` with prefix `""` it issues all three engine queries and
returns the concatenated engine-derived suggestions truncated to `size`;
for prefix `null` it issues the posts and users queries and then the
hashtag branch throws a `TypeError` (calling `.replace` on `null`),
which the surrounding catch converts to an empty list. -/
theorem autocomplete_empty_prefix_behavior :
    ∀ (size : ℕ) (ph : List PostAcHit) (uh : List UserAcHit) (th : List TagAcHit),
      SearchService.autocomplete (some "") "all" size (.ok ph) (.ok uh) (.ok th)
        = .ok (((ph.map postSuggestion ++ uh.map userSuggestion)
            ++ th.map tagSuggestion).take size, 3) ∧
      SearchService.autocomplete none "all" size (.ok ph) (.ok uh) (.ok th)
        = .ok ([], 2) := by
  intro size ph uh th
  constructor <;> rfl

/-- C5: `findSimilar` never returns the queried id, returns at most
`size` entries, returns `[]` when the source lookup fails or the source
has no embedding, and otherwise issues a KNN request for `size + 1`
neighbors before filtering out the source id and truncating to `size`. -/
theorem findSimilar_excludes_source_id :
    ∀ (id type : String) (size : ℕ) (getDoc : EngineResult StoredDoc)
      (knnEngine : KnnRequest → EngineResult (List KnnHit)),
      (∃ res, SearchService.findSimilar id type size getDoc knnEngine = .ok res ∧
        (∀ item ∈ res, item.id ≠ id) ∧ res.length ≤ size) ∧
      (∀ e, getDoc = .error e →
        SearchService.findSimilar id type size getDoc knnEngine = .ok []) ∧
      (∀ doc, getDoc = .ok doc → doc.embedding = none →
        SearchService.findSimilar id type size getDoc knnEngine = .ok []) ∧
      (∀ emb, (similarRequest type emb size).knn.k = size + 1) ∧
      (∀ doc emb hits, getDoc = .ok doc → doc.embedding = some emb →
        knnEngine (similarRequest type emb size) = .ok hits →
        SearchService.findSimilar id type size getDoc knnEngine =
          .ok (((hits.filter (fun h => h._id != id)).take size).map
            (fun h => ⟨h._id, h._score, h.payload⟩))) := by
  intro id type size getDoc knnEngine
  refine ⟨?_, ?_, ?_, fun emb => rfl, ?_⟩
  · unfold SearchService.findSimilar
    cases getDoc with
    | error e => exact ⟨[], rfl, by simp, by simp⟩
    | ok doc =>
      dsimp only
      cases doc.embedding with
      | none => exact ⟨[], rfl, by simp, by simp⟩
      | some emb =>
        dsimp only
        cases knnEngine (similarRequest type emb size) with
        | error e => exact ⟨[], rfl, by simp, by simp⟩
        | ok hits =>
          refine ⟨_, rfl, ?_, ?_⟩
          · intro item hmem
            rcases List.mem_map.mp hmem with ⟨h, hh, rfl⟩
            have hfil : h ∈ hits.filter (fun h => h._id != id) :=
              List.take_subset _ _ hh
            have := (List.mem_filter.mp hfil).2
            exact bne_iff_ne.mp this
          · rw [List.length_map, List.length_take]
            exact min_le_left _ _
  · intro e he
    subst he
    rfl
  · intro doc hdoc hemb
    subst hdoc
    unfold SearchService.findSimilar
    dsimp only
    rw [hemb]
  · intro doc emb hits hdoc hemb hknn
    subst hdoc
    unfold SearchService.findSimilar
    dsimp only
    rw [hemb]
    dsimp only
    rw [hknn]

/-- Witness for C5 at concrete inputs: the source document "x" is
filtered out of its own neighbor set and the result is truncated to
`size = 1`. -/
theorem findSimilar_excludes_source_id_witness :
    SearchService.findSimilar "x" "posts" 1 (.ok ⟨some [1]⟩)
        (fun _ => .ok [⟨"x", 1, []⟩, ⟨"y", 2, []⟩, ⟨"z", 3, []⟩])
      = .ok [⟨"y", 2, []⟩] := by
  have h := (findSimilar_excludes_source_id "x" "posts" 1 (.ok ⟨some [1]⟩)
      (fun _ => .ok [⟨"x", 1, []⟩, ⟨"y", 2, []⟩, ⟨"z", 3, []⟩])).2.2.2.2
    ⟨some [1]⟩ [1] [⟨"x", 1, []⟩, ⟨"y", 2, []⟩, ⟨"z", 3, []⟩] rfl rfl rfl
  rw [h]
  rfl

/-- C6: a failed user lookup or a user without an embedding makes
`getRecommendations` return the `getPopularContent` fallback, whose
items all carry `reason = "popular"`; a user with an embedding triggers
a KNN request over the target index with `k = size`, an oversampled
candidate pool of `size * 5` and the embedding field excluded from the
`_source`, and every returned item carries `reason = "personalized"`. -/
theorem getRecommendations_cold_start_policy :
    ∀ (type : String) (size : ℕ)
      (userLookup : EngineResult StoredUser)
      (knnEngine : KnnRequest → EngineResult (List KnnHit))
      (popularResp : EngineResult (List KnnHit)),
      (∀ e, userLookup = .error e →
        SearchService.getRecommendations type size userLookup knnEngine popularResp =
          SearchService.getPopularContent popularResp) ∧
      (∀ u, userLookup = .ok u → u.embedding = none →
        SearchService.getRecommendations type size userLookup knnEngine popularResp =
          SearchService.getPopularContent popularResp) ∧
      (∀ r, SearchService.getPopularContent popularResp = .ok r →
        ∀ item ∈ r, item.reason = "popular") ∧
      (∀ emb, (recommendationRequest type emb size).knn.k = size ∧
        (recommendationRequest type emb size).knn.num_candidates = size * 5 ∧
        (recommendationRequest type emb size).sourceExcludes = ["embedding"] ∧
        (recommendationRequest type emb size).index = knnTargetIndex type) ∧
      (∀ u emb hits, userLookup = .ok u → u.embedding = some emb →
        knnEngine (recommendationRequest type emb size) = .ok hits →
        ∃ res, SearchService.getRecommendations type size userLookup knnEngine popularResp
            = .ok res ∧
          res = hits.map (fun h => ⟨h._id, some h._score, h.payload, "personalized"⟩) ∧
          ∀ item ∈ res, item.reason = "personalized") := by
  intro type size userLookup knnEngine popularResp
  refine ⟨?_, ?_, ?_, fun emb => ⟨rfl, rfl, rfl, rfl⟩, ?_⟩
  · intro e he
    subst he
    rfl
  · intro u hu hemb
    subst hu
    unfold SearchService.getRecommendations
    dsimp only
    rw [hemb]
  · intro r hr item hmem
    unfold SearchService.getPopularContent at hr
    cases popularResp with
    | error e =>
      simp only [Except.ok.injEq] at hr
      subst hr
      simp at hmem
    | ok hits =>
      simp only [Except.ok.injEq] at hr
      subst hr
      rcases List.mem_map.mp hmem with ⟨h, hh, rfl⟩
      rfl
  · intro u emb hits hu hemb hknn
    subst hu
    refine ⟨_, ?_, rfl, ?_⟩
    · unfold SearchService.getRecommendations
      dsimp only
      rw [hemb]
      dsimp only
      rw [hknn]
    · intro item hmem
      rcases List.mem_map.mp hmem with ⟨h, hh, rfl⟩
      rfl

/-- Witness for C6 at concrete inputs: a user with an embedding yields
the personalized mapping of the KNN hits; a failed lookup yields the
popular fallback. -/
theorem getRecommendations_cold_start_policy_witness :
    SearchService.getRecommendations "posts" 4 (.ok ⟨some [1]⟩)
        (fun _ => .ok [⟨"a", 2, []⟩]) (.ok [⟨"p", 3, []⟩])
      = .ok [⟨"a", some 2, [], "personalized"⟩] ∧
    SearchService.getRecommendations "posts" 4 (.error ⟨500⟩)
        (fun _ => .ok [⟨"a", 2, []⟩]) (.ok [⟨"p", 3, []⟩])
      = .ok [⟨"p", none, [], "popular"⟩] := by
  constructor
  · rcases (getRecommendations_cold_start_policy "posts" 4 (.ok ⟨some [1]⟩)
        (fun _ => .ok [⟨"a", 2, []⟩]) (.ok [⟨"p", 3, []⟩])).2.2.2.2
      ⟨some [1]⟩ [1] [⟨"a", 2, []⟩] rfl rfl rfl with ⟨res, heq, hres, _⟩
    rw [heq, hres]
    rfl
  · have h := (getRecommendations_cold_start_policy "posts" 4 (.error ⟨500⟩)
        (fun _ => .ok [⟨"a", 2, []⟩]) (.ok [⟨"p", 3, []⟩])).1 ⟨500⟩ rfl
    rw [h]
    rfl

/-- C7: every synced search document's id equals the source entity's
primary key rendered as a string — the stringified `_id` for posts and
users, the aggregation grouping key (the tag text) for hashtag
documents — and the id is independent of the sync instant, so
re-indexing the same entity targets the same id and overwrites rather
than duplicates. -/
theorem syncDocument_id_stability :
    ∀ (p : PostRow) (u : UserRow) (h : HashtagAgg) (now1 now2 : ℚ),
      (IndexSyncWorker.transformPost now1 p)._id = p._id.toString ∧
      (IndexSyncWorker.transformUser u)._id = u._id.toString ∧
      (IndexSyncWorker.hashtagDocument now1 h)._id = h._id ∧
      (IndexSyncWorker.transformPost now1 p)._id = (IndexSyncWorker.transformPost now2 p)._id ∧
      (IndexSyncWorker.hashtagDocument now1 h)._id = (IndexSyncWorker.hashtagDocument now2 h)._id := by
  intro p u h now1 now2
  exact ⟨rfl, rfl, rfl, rfl, rfl⟩

/-- C8 counterexample: in `SearchService.deleteDocument` the engine's
"not found" (404) response lands in the catch-all and yields `false`,
while deleting an existing id yields `true` — not the same outcome, so
the 404 is not treated as success there. -/
theorem deleteDocument_notFound_counterexample :
    SearchService.deleteDocument (Except.error notFoundError) = .ok false ∧
    SearchService.deleteDocument (Except.ok ()) = .ok true ∧
    SearchService.deleteDocument (Except.error notFoundError) ≠
      SearchService.deleteDocument (Except.ok ()) := by
  refine ⟨rfl, rfl, ?_⟩
  decide

/-- C8 amended: both delete implementations resolve without throwing for
every engine outcome; `IndexSyncWorker.deleteDocument` treats a 404
exactly like a successful delete (same resolution, not even logged),
while `SearchService.deleteDocument` maps a 404 — like any engine
error — to `false` instead of the `true` an existing id produces. -/
theorem deleteDocument_notFound_policy :
    ∀ (r : EngineResult Unit),
      (∃ b, SearchService.deleteDocument r = .ok b) ∧
      SearchService.deleteDocument (Except.error notFoundError) = .ok false ∧
      (IndexSyncWorker.deleteDocument r).result = .ok () ∧
      IndexSyncWorker.deleteDocument (Except.error notFoundError) =
        IndexSyncWorker.deleteDocument (Except.ok ()) := by
  intro r
  refine ⟨?_, rfl, ?_, by decide⟩
  · cases r with
    | ok v => exact ⟨true, rfl⟩
    | error e => exact ⟨false, rfl⟩
  · cases r <;> rfl

/-- C9: the write paths are asymmetric — `indexDocument`,
`updateDocument` and `deleteDocument` turn every engine-level failure
into a resolved `false`, while `bulkIndex` re-throws it; a successful
bulk call yields `{success, indexed, errors}` with `success` the negated
engine `errors` flag, `indexed` the submitted document count, and
`errors` the engine-reported per-document failures. -/
theorem writePath_error_asymmetry :
    ∀ (e : EsError) (docs : List BulkDoc) (r : BulkResponse),
      SearchService.indexDocument (Except.error e) = .ok false ∧
      SearchService.updateDocument (Except.error e) = .ok false ∧
      SearchService.deleteDocument (Except.error e) = .ok false ∧
      SearchService.bulkIndex docs (Except.error e) = .error e ∧
      (∀ res, SearchService.bulkIndex docs (Except.ok r) = .ok res →
        res.success = !r.errors ∧ res.indexed = docs.length ∧
        (r.errors = true → res.errors = r.items.filter (fun i => i.indexError.isSome)) ∧
        (r.errors = false → res.errors = [])) := by
  intro e docs r
  refine ⟨rfl, rfl, rfl, rfl, ?_⟩
  intro res hres
  unfold SearchService.bulkIndex at hres
  simp only [Except.ok.injEq] at hres
  subst hres
  refine ⟨rfl, rfl, ?_, ?_⟩
  · intro herr
    simp [herr]
  · intro herr
    simp [herr]

/-- Witness for C9 at concrete inputs: a partially failed bulk response
produces `success = false` with a non-empty error list, and the other
write methods return `false` on an engine error. -/
theorem writePath_error_asymmetry_witness :
    SearchService.indexDocument (Except.error ⟨500⟩) = .ok false ∧
    SearchService.bulkIndex [⟨some "a", none, []⟩] (Except.error ⟨500⟩) = .error ⟨500⟩ ∧
    (SearchService.bulkIndex [⟨some "a", none, []⟩]
        (Except.ok ⟨true, [⟨some "mapper_parsing_exception"⟩]⟩)
      = .ok ⟨false, 1, [⟨some "mapper_parsing_exception"⟩]⟩) := by
  have h := writePath_error_asymmetry ⟨500⟩ [⟨some "a", none, []⟩]
    ⟨true, [⟨some "mapper_parsing_exception"⟩]⟩
  refine ⟨h.1, h.2.2.2.1, ?_⟩
  have hb := h.2.2.2.2 ⟨false, 1, [⟨some "mapper_parsing_exception"⟩]⟩ (by rfl)
  rfl

/-- C10: whenever the bulk call itself succeeds, `bulkIndex` reports
`indexed` equal to the total number of submitted documents — even when
some documents were rejected (`errors` non-empty, `success = false`) —
so `indexed` is not the count of successfully indexed documents. -/
theorem bulkIndex_indexed_is_submitted_count :
    ∀ (docs : List BulkDoc) (r : BulkResponse),
      (∃ res, SearchService.bulkIndex docs (Except.ok r) = .ok res ∧
        res.indexed = docs.length) ∧
      (∃ res, SearchService.bulkIndex [⟨some "a", none, []⟩, ⟨some "b", none, []⟩]
          (Except.ok ⟨true, [⟨some "boom"⟩, ⟨none⟩]⟩) = .ok res ∧
        res.indexed = 2 ∧ res.success = false ∧ res.errors ≠ []) := by
  intro docs r
  constructor
  · exact ⟨_, rfl, rfl⟩
  · refine ⟨⟨false, 2, [⟨some "boom"⟩]⟩, by rfl, rfl, rfl, by decide⟩
